import Mathlib

/-!
Shallow embedding of the physics-model core of the bubble-physics repository
(src/components/MechanicsLab.tsx): the Young-Laplace pressure/flow step of
MechanicsExperiment, the Steiner-length constants and junction coordinates of
GeometryExperiment, and the thin-film interferenceColor banding function of
OpticsExperiment.  Floating-point arithmetic of the source is modelled by exact
real arithmetic; the color function, whose comparisons are all rational, is
modelled over the rationals.
-/

namespace BubblePhysics

/-! ### Optics: interferenceColor (MechanicsLab.tsx lines 330-349)

The source returns CSS strings of the shape rgb(a, b, c); we model each return
value as the corresponding RGB triple. -/

def interferenceColor (thickness : ℚ) : ℕ × ℕ × ℕ :=
  let t := max 0 thickness
  if t < 30 then (20, 20, 20)
  else if t < 120 then (240, 240, 250)
  else if t < 250 then (255, 220, 100)
  else if t < 350 then (200, 50, 255)
  else if t < 450 then (50, 100, 255)
  else if t < 550 then (50, 255, 150)
  else if t < 650 then (255, 255, 50)
  else if t < 800 then (255, 100, 100)
  else (100, 200, 200)

noncomputable section

/-! ### Mechanics: MechanicsExperiment (MechanicsLab.tsx lines 102-196) -/

def SURFACE_TENSION : ℝ := 50

def FLOW_RATE_CONSTANT : ℝ := 0.0005

/-- The React component state relevant to the simulation: the displayed radii
r1, r2, the stored volumes stateRef.v1, stateRef.v2, the valveOpen flag and the
animating flag. -/
structure MechState where
  r1 : ℝ
  r2 : ℝ
  v1 : ℝ
  v2 : ℝ
  valveOpen : Bool
  animating : Bool

/-- Math.max(0.0001, v), the volume clamp used before radius recovery. -/
def safeVol (v : ℝ) : ℝ := max 0.0001 v

/-- Math.pow((3 * v) / (4 * Math.PI), 1/3): radius recovered from a volume. -/
def radiusFromVolume (v : ℝ) : ℝ := (3 * v / (4 * Real.pi)) ^ ((1 : ℝ) / 3)

/-- curR1 of the step callback: radius recovered from the clamped volume v1. -/
def curRadius1 (s : MechState) : ℝ := radiusFromVolume (safeVol s.v1)

/-- curR2 of the step callback: radius recovered from the clamped volume v2. -/
def curRadius2 (s : MechState) : ℝ := radiusFromVolume (safeVol s.v2)

/-- Laplace pressure (2 * SURFACE_TENSION) / r. -/
def pressure (r : ℝ) : ℝ := 2 * SURFACE_TENSION / r

/-- The per-tick transferred volume: flow = (p1 - p2) * FLOW_RATE_CONSTANT. -/
def flow (s : MechState) : ℝ :=
  (pressure (curRadius1 s) - pressure (curRadius2 s)) * FLOW_RATE_CONSTANT

/-- One invocation of the step callback (MechanicsLab.tsx lines 119-150).
With the valve open: recover both radii from the clamped stored volumes; if
either is below the 0.2 collapse floor, close the valve and stop animating,
leaving volumes and displayed radii untouched; otherwise transfer flow from
v1 to v2 and display the radii recovered from the new (clamped) volumes.
With the valve closed the callback only clears the animating flag. -/
def step (s : MechState) : MechState :=
  if s.valveOpen then
    if curRadius1 s < 0.2 ∨ curRadius2 s < 0.2 then
      { s with valveOpen := false, animating := false }
    else
      let f := flow s
      let newV1 := s.v1 - f
      let newV2 := s.v2 + f
      { r1 := radiusFromVolume (safeVol newV1)
        r2 := radiusFromVolume (safeVol newV2)
        v1 := newV1
        v2 := newV2
        valveOpen := true
        animating := true }
  else
    { s with animating := false }

/-! ### Geometry: GeometryExperiment (MechanicsLab.tsx lines 200-238) -/

def sideLength : ℝ := 1

def lenDirect : ℝ := 2 * Real.sqrt 2 * sideLength

def lenSoap : ℝ := sideLength * (1 + Real.sqrt 3)

/-- const size = 200: the pixel side of the drawn square. -/
def size : ℝ := 200

def p_tl : ℝ × ℝ := (50, 50)

def p_tr : ℝ × ℝ := (250, 50)

def p_bl : ℝ × ℝ := (50, 250)

def p_br : ℝ × ℝ := (250, 250)

/-- const offset = 100 / Math.sqrt(3). -/
def offset : ℝ := 100 / Real.sqrt 3

/-- sp1 = { x: 150, y: 50 + offset }. -/
def sp1 : ℝ × ℝ := (150, 50 + offset)

/-- sp2 = { x: 150, y: 250 - offset }. -/
def sp2 : ℝ × ℝ := (150, 250 - offset)

/-- Vector from a to b in the drawing plane. -/
def edgeVec (a b : ℝ × ℝ) : ℝ × ℝ := (b.1 - a.1, b.2 - a.2)

def dot2 (u v : ℝ × ℝ) : ℝ := u.1 * v.1 + u.2 * v.2

def sqNorm (u : ℝ × ℝ) : ℝ := u.1 ^ 2 + u.2 ^ 2

/-- Two nonzero vectors meet at exactly 120 degrees iff the cosine of their
angle is -1/2, i.e. their dot product is negative and its square is a quarter
of the product of the squared norms. -/
def isAngle120 (u v : ℝ × ℝ) : Prop :=
  dot2 u v < 0 ∧ 4 * dot2 u v ^ 2 = sqNorm u * sqNorm v

/-! ### Concrete states used by the witnesses -/

/-- Valve-open state with radii 1 and 2 and the matching stored volumes. -/
def mechW : MechState :=
  { r1 := 1, r2 := 2
    v1 := 4 / 3 * Real.pi * (1 : ℝ) ^ (3 : ℕ)
    v2 := 4 / 3 * Real.pi * (2 : ℝ) ^ (3 : ℕ)
    valveOpen := true, animating := true }

/-- Valve-open state whose first radius 0.125 is below the 0.2 collapse floor. -/
def collapsedW : MechState :=
  { r1 := 0.125, r2 := 1
    v1 := 4 / 3 * Real.pi * (0.125 : ℝ) ^ (3 : ℕ)
    v2 := 4 / 3 * Real.pi * (1 : ℝ) ^ (3 : ℕ)
    valveOpen := true, animating := true }

/-- Valve-open state whose first radius 0.15 is below the 0.2 collapse floor. -/
def collapsedW2 : MechState :=
  { r1 := 0.15, r2 := 1
    v1 := 4 / 3 * Real.pi * (0.15 : ℝ) ^ (3 : ℕ)
    v2 := 4 / 3 * Real.pi * (1 : ℝ) ^ (3 : ℕ)
    valveOpen := true, animating := true }

/-- Valve-open state whose first radius 0.12 is below the 0.2 collapse floor. -/
def collapsedW3 : MechState :=
  { r1 := 0.12, r2 := 1
    v1 := 4 / 3 * Real.pi * (0.12 : ℝ) ^ (3 : ℕ)
    v2 := 4 / 3 * Real.pi * (1 : ℝ) ^ (3 : ℕ)
    valveOpen := true, animating := true }

/-- A state with the valve closed. -/
def closedW : MechState :=
  { r1 := 1, r2 := 2, v1 := 1, v2 := 2, valveOpen := false, animating := false }

end

/-! ## Basic lemmas about the embedding -/

lemma safeVol_pos (v : ℝ) : 0 < safeVol v :=
  lt_of_lt_of_le (by norm_num) (le_max_left _ _)

lemma safeVol_mono {v w : ℝ} (h : v ≤ w) : safeVol v ≤ safeVol w :=
  max_le_max le_rfl h

lemma safeVol_eq {v : ℝ} (h : 0.0001 ≤ v) : safeVol v = v := max_eq_right h

lemma radiusFromVolume_pos {v : ℝ} (hv : 0 < v) : 0 < radiusFromVolume v := by
  unfold radiusFromVolume
  have hp : (0 : ℝ) < Real.pi := Real.pi_pos
  apply Real.rpow_pos_of_pos
  positivity

lemma radiusFromVolume_le {v w : ℝ} (h0 : 0 ≤ v) (h : v ≤ w) :
    radiusFromVolume v ≤ radiusFromVolume w := by
  unfold radiusFromVolume
  have hp : (0 : ℝ) < Real.pi := Real.pi_pos
  apply Real.rpow_le_rpow (by positivity) _ (by norm_num)
  gcongr

lemma radiusFromVolume_lt {v w : ℝ} (h0 : 0 ≤ v) (h : v < w) :
    radiusFromVolume v < radiusFromVolume w := by
  unfold radiusFromVolume
  have hp : (0 : ℝ) < Real.pi := Real.pi_pos
  apply Real.rpow_lt_rpow (by positivity) _ (by norm_num)
  gcongr

lemma cuberoot_cube {a : ℝ} (ha : 0 ≤ a) : (a ^ (3 : ℕ)) ^ ((1 : ℝ) / 3) = a := by
  rw [← Real.rpow_natCast a 3, ← Real.rpow_mul ha]
  norm_num

lemma radiusFromVolume_eval {a : ℝ} (ha : 0 ≤ a) :
    radiusFromVolume (4 / 3 * Real.pi * a ^ (3 : ℕ)) = a := by
  unfold radiusFromVolume
  have hp : Real.pi ≠ 0 := Real.pi_ne_zero
  have h1 : 3 * (4 / 3 * Real.pi * a ^ (3 : ℕ)) / (4 * Real.pi) = a ^ (3 : ℕ) := by
    field_simp
  rw [h1]
  exact cuberoot_cube ha

lemma vol_ge {a : ℝ} (h : 0.1 ≤ a) : 0.0001 ≤ 4 / 3 * Real.pi * a ^ (3 : ℕ) := by
  have hp : (3 : ℝ) < Real.pi := Real.pi_gt_three
  have hcube : (0.1 : ℝ) ^ (3 : ℕ) ≤ a ^ (3 : ℕ) :=
    pow_le_pow_left₀ (by norm_num) h 3
  nlinarith [hcube]

lemma radius_recover_eval {a : ℝ} (h : 0.1 ≤ a) :
    radiusFromVolume (safeVol (4 / 3 * Real.pi * a ^ (3 : ℕ))) = a := by
  rw [safeVol_eq (vol_ge h)]
  exact radiusFromVolume_eval (le_trans (by norm_num) h)

/-! ## Branch lemmas for step -/

lemma step_terminal {s : MechState} (hv : s.valveOpen = true)
    (hc : curRadius1 s < 0.2 ∨ curRadius2 s < 0.2) :
    step s = { s with valveOpen := false, animating := false } := by
  unfold step
  rw [hv]
  simp only [if_true]
  rw [if_pos hc]

lemma step_advance {s : MechState} (hv : s.valveOpen = true)
    (hnc : ¬ (curRadius1 s < 0.2 ∨ curRadius2 s < 0.2)) :
    step s = { r1 := radiusFromVolume (safeVol (s.v1 - flow s))
               r2 := radiusFromVolume (safeVol (s.v2 + flow s))
               v1 := s.v1 - flow s
               v2 := s.v2 + flow s
               valveOpen := true
               animating := true } := by
  unfold step
  rw [hv]
  simp only [if_true]
  rw [if_neg hnc]

lemma step_closedValve {s : MechState} (hv : s.valveOpen = false) :
    step s = { s with animating := false } := by
  unfold step
  rw [hv]
  simp

/-- Volumes are preserved in total by every branch of step. -/
lemma step_total (s : MechState) : (step s).v1 + (step s).v2 = s.v1 + s.v2 := by
  unfold step
  split_ifs
  · rfl
  · simp only
    ring
  · rfl

/-! ## Evaluation lemmas for the concrete states -/

lemma mechW_curR1 : curRadius1 mechW = 1 := radius_recover_eval (by norm_num)

lemma mechW_curR2 : curRadius2 mechW = 2 := radius_recover_eval (by norm_num)

lemma mechW_notCollapsed : ¬ (curRadius1 mechW < 0.2 ∨ curRadius2 mechW < 0.2) := by
  rw [mechW_curR1, mechW_curR2]
  norm_num

lemma collapsedW_curR1 : curRadius1 collapsedW = 0.125 :=
  radius_recover_eval (by norm_num)

lemma collapsedW2_curR1 : curRadius1 collapsedW2 = 0.15 :=
  radius_recover_eval (by norm_num)

lemma collapsedW3_curR1 : curRadius1 collapsedW3 = 0.12 :=
  radius_recover_eval (by norm_num)

lemma collapsedW_collapsed : curRadius1 collapsedW < 0.2 ∨ curRadius2 collapsedW < 0.2 := by
  left
  rw [collapsedW_curR1]
  norm_num

lemma collapsedW2_collapsed : curRadius1 collapsedW2 < 0.2 ∨ curRadius2 collapsedW2 < 0.2 := by
  left
  rw [collapsedW2_curR1]
  norm_num

lemma collapsedW3_collapsed : curRadius1 collapsedW3 < 0.2 ∨ curRadius2 collapsedW3 < 0.2 := by
  left
  rw [collapsedW3_curR1]
  norm_num

lemma curRadius1_pos (s : MechState) : 0 < curRadius1 s :=
  radiusFromVolume_pos (safeVol_pos _)

lemma curRadius2_pos (s : MechState) : 0 < curRadius2 s :=
  radiusFromVolume_pos (safeVol_pos _)

lemma pressure_anti {r1 r2 : ℝ} (h0 : 0 < r1) (h12 : r1 < r2) :
    pressure r2 < pressure r1 := by
  unfold pressure SURFACE_TENSION
  exact div_lt_div_of_pos_left (by norm_num) h0 h12

lemma curRadius1_set_flags (s : MechState) :
    curRadius1 { s with valveOpen := false, animating := false } = curRadius1 s := rfl

/-! ## Claim theorems -/

/-- C1: for every step taken with the valve open and no termination the updated
volumes satisfy v1 = v1 - ΔV and v2 = v2 + ΔV, so the total volume after the
step equals the total before it exactly; iterating step any number of times
leaves the total volume unchanged. -/
theorem C1_volume_conservation (s : MechState) (hv : s.valveOpen = true)
    (hnc : ¬ (curRadius1 s < 0.2 ∨ curRadius2 s < 0.2)) :
    (step s).v1 = s.v1 - flow s ∧ (step s).v2 = s.v2 + flow s ∧
    (step s).v1 + (step s).v2 = s.v1 + s.v2 ∧
    ∀ n : ℕ, (step^[n] s).v1 + (step^[n] s).v2 = s.v1 + s.v2 := by
  have hb := step_advance hv hnc
  refine ⟨by rw [hb], by rw [hb], step_total s, ?_⟩
  intro n
  induction n with
  | zero => simp
  | succ k ih =>
      rw [Function.iterate_succ_apply', step_total]
      exact ih

/-- Witness for C1 at the concrete valve-open state with radii 1 and 2,
iterated three times for the N-step conjunct. -/
theorem C1_volume_conservation_witness :
    (step mechW).v1 = mechW.v1 - flow mechW ∧
    (step mechW).v2 = mechW.v2 + flow mechW ∧
    (step mechW).v1 + (step mechW).v2 = mechW.v1 + mechW.v2 ∧
    (step^[3] mechW).v1 + (step^[3] mechW).v2 = mechW.v1 + mechW.v2 := by
  have h := C1_volume_conservation mechW rfl mechW_notCollapsed
  exact ⟨h.1, h.2.1, h.2.2.1, h.2.2.2 3⟩

/-- C2: for every valve-open, non-terminated step, if curR1 < curR2 then the
transferred volume is strictly positive, bubble A loses volume and bubble B
gains it, the ordering of the radii persists into the next state (so every
following step until termination transfers in the same direction), and the
valve stays open; if the radii are equal the transferred volume is zero. -/
theorem C2_flow_direction (s : MechState) (hv : s.valveOpen = true)
    (hnc : ¬ (curRadius1 s < 0.2 ∨ curRadius2 s < 0.2)) :
    (curRadius1 s < curRadius2 s →
      0 < flow s ∧ (step s).v1 < s.v1 ∧ s.v2 < (step s).v2 ∧
      curRadius1 (step s) < curRadius2 (step s) ∧ (step s).valveOpen = true) ∧
    (curRadius1 s = curRadius2 s → flow s = 0) := by
  have hb := step_advance hv hnc
  constructor
  · intro hlt
    have hp := pressure_anti (curRadius1_pos s) hlt
    have hf : 0 < flow s := by
      unfold flow
      exact mul_pos (by linarith) (by norm_num [FLOW_RATE_CONSTANT])
    have hv1 : (step s).v1 = s.v1 - flow s := by rw [hb]
    have hv2 : (step s).v2 = s.v2 + flow s := by rw [hb]
    have hr1 : curRadius1 (step s) ≤ curRadius1 s := by
      rw [hb]
      show radiusFromVolume (safeVol (s.v1 - flow s)) ≤ radiusFromVolume (safeVol s.v1)
      exact radiusFromVolume_le (safeVol_pos _).le (safeVol_mono (by linarith))
    have hr2 : curRadius2 s ≤ curRadius2 (step s) := by
      rw [hb]
      show radiusFromVolume (safeVol s.v2) ≤ radiusFromVolume (safeVol (s.v2 + flow s))
      exact radiusFromVolume_le (safeVol_pos _).le (safeVol_mono (by linarith))
    refine ⟨hf, by rw [hv1]; linarith, by rw [hv2]; linarith, ?_, by rw [hb]⟩
    exact lt_of_le_of_lt hr1 (lt_of_lt_of_le hlt hr2)
  · intro heq
    unfold flow
    rw [heq]
    ring

/-- Witness for C2 at the concrete valve-open state with radii 1 < 2. -/
theorem C2_flow_direction_witness :
    0 < flow mechW ∧ (step mechW).v1 < mechW.v1 ∧ mechW.v2 < (step mechW).v2 ∧
    curRadius1 (step mechW) < curRadius2 (step mechW) ∧ (step mechW).valveOpen = true :=
  (C2_flow_direction mechW rfl mechW_notCollapsed).1
    (by rw [mechW_curR1, mechW_curR2]; norm_num)

/-- C4 counterexample: at the concrete valve-open state with radii 1 and 2 the
per-tick transferred volume is (P_A - P_B) * k and differs from
(P_A - P_B) * k * dt at the time step dt = 2: the step callback takes no time
step at all, so no dt factor appears in the flow. -/
theorem C4_no_dt_counterexample :
    flow mechW ≠
      (pressure (curRadius1 mechW) - pressure (curRadius2 mechW)) *
        FLOW_RATE_CONSTANT * 2 := by
  unfold flow
  rw [mechW_curR1, mechW_curR2]
  unfold pressure SURFACE_TENSION FLOW_RATE_CONSTANT
  norm_num

/-- C4 (amended): on every valve-open, non-terminated step the volume moved in
one tick equals ΔV = (P_A - P_B) · k for the fixed flow-rate constant
k = 0.0005; the step takes no time-step parameter, so no dt factor appears
(equivalently, the tick length is fixed at one frame and absorbed into k). -/
theorem C4_flow_formula (s : MechState) (hv : s.valveOpen = true)
    (hnc : ¬ (curRadius1 s < 0.2 ∨ curRadius2 s < 0.2)) :
    flow s = (pressure (curRadius1 s) - pressure (curRadius2 s)) * FLOW_RATE_CONSTANT ∧
    (step s).v1 = s.v1 - flow s ∧ (step s).v2 = s.v2 + flow s := by
  have hb := step_advance hv hnc
  exact ⟨rfl, by rw [hb], by rw [hb]⟩

/-- Witness for C4 (amended) at the concrete valve-open state with radii 1, 2. -/
theorem C4_flow_formula_witness :
    flow mechW =
      (pressure (curRadius1 mechW) - pressure (curRadius2 mechW)) * FLOW_RATE_CONSTANT ∧
    (step mechW).v1 = mechW.v1 - flow mechW ∧ (step mechW).v2 = mechW.v2 + flow mechW :=
  C4_flow_formula mechW rfl mechW_notCollapsed

/-- C5 counterexample: at the concrete collapsed state with recovered radius
0.125 < 0.2 the terminal step leaves the stored volume and displayed radius
exactly unchanged and the recovered radius stays 0.125, strictly below the
floor: the step performs no clamping of the radius, contrary to the claim. -/
theorem C5_no_clamp_counterexample :
    collapsedW.valveOpen = true ∧
    curRadius1 collapsedW < 0.2 ∧
    (step collapsedW).v1 = collapsedW.v1 ∧
    (step collapsedW).r1 = collapsedW.r1 ∧
    curRadius1 (step collapsedW) = 0.125 ∧
    curRadius1 (step collapsedW) < 0.2 := by
  have hb := step_terminal (s := collapsedW) rfl collapsedW_collapsed
  have h5 : curRadius1 (step collapsedW) = 0.125 := by
    rw [hb, curRadius1_set_flags, collapsedW_curR1]
  refine ⟨rfl, ?_, by rw [hb], by rw [hb], h5, ?_⟩
  · rw [collapsedW_curR1]
    norm_num
  · rw [h5]
    norm_num

/-- C5 (amended): if recovering either radius falls below the 0.2 collapse
floor, the step stops advancing and closes the valve, leaving the stored
volumes and displayed radii exactly unchanged (no clamping is applied); and
once the valve is closed every further call leaves both radii and both volumes
unchanged with the valve still closed, until the caller explicitly resets. -/
theorem C5_termination_policy (s t : MechState) (hs : s.valveOpen = true)
    (hc : curRadius1 s < 0.2 ∨ curRadius2 s < 0.2) (ht : t.valveOpen = false) :
    (step s).valveOpen = false ∧ (step s).r1 = s.r1 ∧ (step s).r2 = s.r2 ∧
    (step s).v1 = s.v1 ∧ (step s).v2 = s.v2 ∧
    (step t).r1 = t.r1 ∧ (step t).r2 = t.r2 ∧ (step t).v1 = t.v1 ∧
    (step t).v2 = t.v2 ∧ (step t).valveOpen = false := by
  have hbs := step_terminal hs hc
  have hbt := step_closedValve ht
  exact ⟨by rw [hbs], by rw [hbs], by rw [hbs], by rw [hbs], by rw [hbs],
    by rw [hbt], by rw [hbt], by rw [hbt], by rw [hbt], by rw [hbt]; exact ht⟩

/-- Witness for C5 (amended) at the concrete collapsed state with recovered
radius 0.15 and at a concrete valve-closed state. -/
theorem C5_termination_policy_witness :
    (step collapsedW2).valveOpen = false ∧
    (step collapsedW2).r1 = collapsedW2.r1 ∧ (step collapsedW2).r2 = collapsedW2.r2 ∧
    (step collapsedW2).v1 = collapsedW2.v1 ∧ (step collapsedW2).v2 = collapsedW2.v2 ∧
    (step closedW).r1 = closedW.r1 ∧ (step closedW).r2 = closedW.r2 ∧
    (step closedW).v1 = closedW.v1 ∧ (step closedW).v2 = closedW.v2 ∧
    (step closedW).valveOpen = false :=
  C5_termination_policy collapsedW2 closedW rfl collapsedW2_collapsed rfl

/-- C10: on the step call that first detects collapse the step applies no flow
and performs no clamping: the stored volumes, both displayed radii and both
recovered radii are left exactly as they were before the call, and the
simulation merely stops by closing the valve and clearing the animating flag. -/
theorem C10_terminal_atomicity (s : MechState) (hv : s.valveOpen = true)
    (hc : curRadius1 s < 0.2 ∨ curRadius2 s < 0.2) :
    (step s).v1 = s.v1 ∧ (step s).v2 = s.v2 ∧
    (step s).r1 = s.r1 ∧ (step s).r2 = s.r2 ∧
    curRadius1 (step s) = curRadius1 s ∧ curRadius2 (step s) = curRadius2 s ∧
    (step s).valveOpen = false ∧ (step s).animating = false := by
  have hb := step_terminal hv hc
  rw [hb]
  exact ⟨rfl, rfl, rfl, rfl, rfl, rfl, rfl, rfl⟩

lemma sqrt2_lb : 1.4135 < Real.sqrt 2 := by
  nlinarith [Real.sq_sqrt (show (0:ℝ) ≤ 2 by norm_num), Real.sqrt_nonneg 2]

lemma sqrt2_ub : Real.sqrt 2 < 1.4145 := by
  nlinarith [Real.sq_sqrt (show (0:ℝ) ≤ 2 by norm_num), Real.sqrt_nonneg 2]

lemma sqrt3_lb : 1.731 < Real.sqrt 3 := by
  nlinarith [Real.sq_sqrt (show (0:ℝ) ≤ 3 by norm_num), Real.sqrt_nonneg 3]

lemma sqrt3_ub : Real.sqrt 3 < 1.733 := by
  nlinarith [Real.sq_sqrt (show (0:ℝ) ≤ 3 by norm_num), Real.sqrt_nonneg 3]

lemma sqrt3_pos : 0 < Real.sqrt 3 := Real.sqrt_pos.mpr (by norm_num)

/-- C6: the direct topology's total length is 2·√2·side and the soap-film
topology's total length is side·(1 + √3) for the unit side length; the
soap-film length is strictly smaller, and each length is within 1e-3 of its
closed-form constant 2.828 resp. 2.732. -/
theorem C6_steiner_lengths :
    lenDirect = 2 * Real.sqrt 2 * sideLength ∧
    lenSoap = sideLength * (1 + Real.sqrt 3) ∧
    lenSoap < lenDirect ∧
    |lenDirect - 2.828| ≤ 0.001 ∧ |lenSoap - 2.732| ≤ 0.001 := by
  have h2l := sqrt2_lb
  have h2u := sqrt2_ub
  have h3l := sqrt3_lb
  have h3u := sqrt3_ub
  refine ⟨rfl, rfl, ?_, ?_, ?_⟩
  · unfold lenSoap lenDirect sideLength
    nlinarith
  · unfold lenDirect sideLength
    rw [abs_le]
    constructor <;> nlinarith
  · unfold lenSoap sideLength
    rw [abs_le]
    constructor <;> nlinarith

/-- C7 counterexample: the upper junction sp1 sits at distance 100/√3 from the
top edge of the drawn square of side size = 200, and that distance is not
size/√3: the claimed offset side/√3 is wrong by a factor of two. -/
theorem C7_offset_counterexample : sp1.2 - p_tl.2 ≠ size / Real.sqrt 3 := by
  have h0 := sqrt3_pos
  show (50 + 100 / Real.sqrt 3 : ℝ) - 50 ≠ 200 / Real.sqrt 3
  intro h
  have h2 : (100 : ℝ) / Real.sqrt 3 = 200 / Real.sqrt 3 := by linarith
  rw [div_eq_div_iff (ne_of_gt h0) (ne_of_gt h0)] at h2
  nlinarith [h2]

/-- C7 (amended): both Steiner junctions lie on the vertical midline x = 150
of the drawn square of side size = 200, each at distance (size/2)/√3 from the
nearer horizontal edge (half the claimed side/√3), and at each junction the
three incident edges pairwise meet at exactly 120 degrees: every pair has
negative dot product whose square is a quarter of the product of the squared
norms. -/
theorem C7_junction_angles :
    sp1.1 = 150 ∧ sp2.1 = 150 ∧
    sp1.2 - p_tl.2 = size / 2 / Real.sqrt 3 ∧
    p_bl.2 - sp2.2 = size / 2 / Real.sqrt 3 ∧
    isAngle120 (edgeVec sp1 p_tl) (edgeVec sp1 p_tr) ∧
    isAngle120 (edgeVec sp1 p_tl) (edgeVec sp1 sp2) ∧
    isAngle120 (edgeVec sp1 p_tr) (edgeVec sp1 sp2) ∧
    isAngle120 (edgeVec sp2 p_bl) (edgeVec sp2 p_br) ∧
    isAngle120 (edgeVec sp2 p_bl) (edgeVec sp2 sp1) ∧
    isAngle120 (edgeVec sp2 p_br) (edgeVec sp2 sp1) := by
  have hs0 := sqrt3_pos
  have hs2 : Real.sqrt 3 ^ 2 = 3 := Real.sq_sqrt (by norm_num)
  simp only [isAngle120, dot2, sqNorm, edgeVec, sp1, sp2, p_tl, p_tr, p_bl, p_br,
    offset, size]
  set d := (100 : ℝ) / Real.sqrt 3 with hd
  have hd2 : d ^ 2 = 10000 / 3 := by
    rw [hd, div_pow, hs2]
    norm_num
  have hdlb : (57 : ℝ) < d := by
    rw [hd, lt_div_iff₀ hs0]
    nlinarith [sqrt3_ub]
  refine ⟨trivial, trivial, by ring, by ring, ?_, ?_, ?_, ?_, ?_, ?_⟩
  · exact ⟨by nlinarith [hd2], by linear_combination (3 * (d ^ 2 - 30000)) * hd2⟩
  · exact ⟨by nlinarith [hd2, hdlb], by linear_combination (3 * (200 - 2 * d) ^ 2) * hd2⟩
  · exact ⟨by nlinarith [hd2, hdlb], by linear_combination (3 * (200 - 2 * d) ^ 2) * hd2⟩
  · exact ⟨by nlinarith [hd2], by linear_combination (3 * (d ^ 2 - 30000)) * hd2⟩
  · exact ⟨by nlinarith [hd2, hdlb], by linear_combination (3 * (200 - 2 * d) ^ 2) * hd2⟩
  · exact ⟨by nlinarith [hd2, hdlb], by linear_combination (3 * (200 - 2 * d) ^ 2) * hd2⟩

/-- Witness for C10 at the concrete collapsed state with recovered radius
0.12 < 0.2. -/
theorem C10_terminal_atomicity_witness :
    (step collapsedW3).v1 = collapsedW3.v1 ∧ (step collapsedW3).v2 = collapsedW3.v2 ∧
    (step collapsedW3).r1 = collapsedW3.r1 ∧ (step collapsedW3).r2 = collapsedW3.r2 ∧
    curRadius1 (step collapsedW3) = curRadius1 collapsedW3 ∧
    curRadius2 (step collapsedW3) = curRadius2 collapsedW3 ∧
    (step collapsedW3).valveOpen = false ∧ (step collapsedW3).animating = false :=
  C10_terminal_atomicity collapsedW3 rfl collapsedW3_collapsed

/-- C3: each bubble's internal pressure is computed as P = 2·σ / r for the fixed
surface-tension constant σ = 50, and pressure is strictly decreasing in the
radius: for positive radii with r1 < r2, pressure r1 > pressure r2 strictly. -/
theorem C3_pressure_ordering (r1 r2 : ℝ) (h0 : 0 < r1) (h12 : r1 < r2) :
    pressure r1 = 2 * SURFACE_TENSION / r1 ∧ pressure r2 < pressure r1 := by
  constructor
  · rfl
  · unfold pressure SURFACE_TENSION
    exact div_lt_div_of_pos_left (by norm_num) h0 h12

/-- Witness for C3 at the concrete radii 1 and 2. -/
theorem C3_pressure_ordering_witness :
    pressure 1 = 2 * SURFACE_TENSION / 1 ∧ pressure 2 < pressure 1 :=
  C3_pressure_ordering 1 2 (by norm_num) (by norm_num)

/-- C8: interferenceColor is exactly the step function over the ordered
thickness bands [0,30) black, [30,120) silvery-white, [120,250) gold,
[250,350) purple, [350,450) blue, [450,550) green, [550,650) yellow,
[650,800) red/pink, [800,∞) mixed high-order, each band mapping to one fixed
RGB triple; every negative thickness is clamped to zero before lookup, so it
maps to the black-band color of thickness zero. -/
theorem C8_color_bands (t : ℚ) :
    (t < 0 → interferenceColor t = interferenceColor 0 ∧
      interferenceColor 0 = (20, 20, 20)) ∧
    (0 ≤ t → t < 30 → interferenceColor t = (20, 20, 20)) ∧
    (30 ≤ t → t < 120 → interferenceColor t = (240, 240, 250)) ∧
    (120 ≤ t → t < 250 → interferenceColor t = (255, 220, 100)) ∧
    (250 ≤ t → t < 350 → interferenceColor t = (200, 50, 255)) ∧
    (350 ≤ t → t < 450 → interferenceColor t = (50, 100, 255)) ∧
    (450 ≤ t → t < 550 → interferenceColor t = (50, 255, 150)) ∧
    (550 ≤ t → t < 650 → interferenceColor t = (255, 255, 50)) ∧
    (650 ≤ t → t < 800 → interferenceColor t = (255, 100, 100)) ∧
    (800 ≤ t → interferenceColor t = (100, 200, 200)) := by
  refine ⟨?_, ?_, ?_, ?_, ?_, ?_, ?_, ?_, ?_, ?_⟩
  · intro h
    refine ⟨?_, by decide⟩
    simp only [interferenceColor]
    rw [max_eq_left (le_of_lt h), max_self]
  all_goals
    intros
    simp only [interferenceColor]
    rw [max_eq_right (by linarith)]
    split_ifs <;> first | rfl | (exfalso; linarith)

/-- Witness for C8 at the concrete thickness -5, which clamps to the black
band, and at 130, which lies in the gold band. -/
theorem C8_color_bands_witness :
    (interferenceColor (-5) = interferenceColor 0 ∧
      interferenceColor 0 = (20, 20, 20)) ∧
    interferenceColor 130 = (255, 220, 100) :=
  ⟨(C8_color_bands (-5)).1 (by decide),
    (C8_color_bands 130).2.2.2.1 (by decide) (by decide)⟩

/-- C9 counterexample: interferenceColor at thickness 400 is not the gold-band
color (255, 220, 100), contrary to the claim. -/
theorem C9_counterexample : interferenceColor 400 ≠ (255, 220, 100) := by
  decide

/-- C9 (amended): interferenceColor at thickness 400 equals the blue-band
color (50, 100, 255), since 400 lies in the [350,450) blue band. -/
theorem C9_thickness400_blue : interferenceColor 400 = (50, 100, 255) := by
  decide

end BubblePhysics
